import Mathlib

/-!
Shallow embedding of `disco/voice/client.py` (the `VoiceClient` class of the
BetterDisco voice gateway client) and proofs about its behaviour.

The Python class is a cooperatively scheduled protocol state machine.  We embed
each method as a pure state transformer over an explicit `VoiceClientState`
record.  Side effects on external collaborators (the websocket transport, the
UDP media transport, the parent client's gateway and event bus) are recorded as
an explicit list of `Action`s.  Python exceptions are modelled with `Except`:
`VoiceError.voiceException` is the typed `VoiceException(msg, client)` (it
carries the session state at raise time), `VoiceError.plainException` is a bare
`Exception`, `VoiceError.typeError` models the `TypeError` that string
concatenation with `None` raises, and `VoiceError.keyError` models `del` on a
missing dict key.  The gevent greenlet kill of the heartbeat task is modelled as
clearing the `heartbeatTask` flag; wall-clock timestamps and the float latency
computation are outside the embedding.
-/

namespace Disco

/-- The protocol states from the `VoiceState` class (several are declared but
never entered by any handler). -/
inductive VoiceState where
  | DISCONNECTED
  | AWAITING_ENDPOINT
  | AUTHENTICATING
  | CONNECTING
  | CONNECTED
  | VOICE_DISCONNECTED
  | VOICE_CONNECTING
  | VOICE_CONNECTED
  | NO_ROUTE
  | ICE_CHECKING
  | RECONNECTING
  | AUTHENTICATED
  deriving DecidableEq, Repr

/-- Observable effects on external collaborators (websocket transport, UDP
media transport, parent gateway, event bus). -/
inductive Action where
  | openTransport (url : String)
  | wsClose (status : Option Nat)
  | sendControl (op : Nat)
  | udpDisconnect
  | udpSetAudioCodec (name : String)
  | udpSetupEncryption
  | sleep (seconds : Nat)
  | sleepMs (ms : Nat)
  | gatewayVoiceStateUpdate (channelId : Option Nat)
  | registryRemove
  | emitVoiceDisconnect
  | emitSpeaking (userId : Nat) (voice soundshare priority : Bool)
  deriving DecidableEq, Repr

/-- The per-session state of a `VoiceClient` instance (the fields assigned in
`__init__` and mutated by the methods).  `wsOpen` models
`self.ws and self.ws.sock and self.ws.sock.connected`; `heartbeatTask` models
`self._heartbeat_task is not None`; `udpExists` models `self.udp is not None`;
`inRegistry` models membership of this session in
`self.client.state.voice_clients`. -/
structure VoiceClientState where
  serverId : Nat
  channelId : Option Nat
  isDm : Bool
  state : VoiceState
  token : Option String
  endpoint : Option String
  ssrc : Option Nat
  ip : Option String
  port : Option Nat
  mode : Option String
  audioCodec : Option String
  videoCodec : Option String
  transportId : Option String
  wsOpen : Bool
  heartbeatTask : Bool
  heartbeatAcknowledged : Bool
  identified : Bool
  reconnects : Nat
  maxReconnects : Nat
  udpExists : Bool
  udpConnected : Bool
  audioSsrcs : List (Nat × Nat)
  inRegistry : Bool
  videoEnabled : Bool
  deriving DecidableEq, Repr

/-- Python exceptions raised by the embedded methods. -/
inductive VoiceError where
  | voiceException (msg : String) (session : VoiceClientState)
  | plainException (msg : String)
  | typeError
  | keyError
  deriving DecidableEq, Repr

/-- `VoiceClient.VOICE_GATEWAY_VERSION`. -/
def VOICE_GATEWAY_VERSION : Nat := 4

/-- The elements of the Python set `VoiceClient.SUPPORTED_MODES`, listed in
source order.  The Python object is a `set`, so its iteration order is not
fixed; functions that iterate it take the iteration order as an explicit
argument constrained to be a permutation of this list. -/
def SUPPORTED_MODES : List String :=
  ["xsalsa20_poly1305_lite", "xsalsa20_poly1305_suffix", "xsalsa20_poly1305"]

/-- Modelled from the spec: the voice opcode numbers of §6 (External
Interfaces); the file `disco/voice/packets.py` declaring `VoiceOPCode` is not
part of the embedded source. -/
def VoiceOPCode.IDENTIFY : Nat := 0

def VoiceOPCode.SELECT_PROTOCOL : Nat := 1

def VoiceOPCode.HEARTBEAT : Nat := 3

def VoiceOPCode.SPEAKING : Nat := 5

def VoiceOPCode.RESUME : Nat := 7

def VoiceOPCode.CLIENT_CONNECT : Nat := 12

/-- The `__init__` state: `DISCONNECTED`, nothing negotiated, the heartbeat
considered acknowledged, zero reconnect attempts, and the session registered in
the owning client's `voice_clients` registry. -/
def initState (server_id : Nat) (is_dm : Bool) (max_reconnects : Nat) : VoiceClientState :=
  { serverId := server_id
    channelId := none
    isDm := is_dm
    state := VoiceState.DISCONNECTED
    token := none
    endpoint := none
    ssrc := none
    ip := none
    port := none
    mode := none
    audioCodec := none
    videoCodec := none
    transportId := none
    wsOpen := false
    heartbeatTask := false
    heartbeatAcknowledged := true
    identified := false
    reconnects := 0
    maxReconnects := max_reconnects
    udpExists := false
    udpConnected := false
    audioSsrcs := []
    inRegistry := true
    videoEnabled := false }

/-- `endpoint.split(':', 1)[0]`: everything before the first colon. -/
def stripPort (endpoint : String) : String :=
  String.mk (endpoint.toList.takeWhile (fun c => c ≠ ':'))

/-- The close-code classification of `on_close`:
`code and (4000 < code <= 4016 or code == 1001)`.  `none` and `some 0` are
falsy in Python, so they never classify as hard. -/
def isHardClose (code : Option Nat) : Bool :=
  match code with
  | none => false
  | some c => decide (c ≠ 0) && (decide (4000 < c ∧ c ≤ 4016) || decide (c = 1001))

/-- `VoiceClient.send`: frames are sent only while the websocket is connected,
otherwise they are silently dropped. -/
def send (op : Nat) (s : VoiceClientState) : List Action :=
  if s.wsOpen then [Action.sendControl op] else []

/-- `VoiceClient.connect_and_run`: builds the gateway url from
`self.endpoint` (string concatenation with `None` raises `TypeError`) and
starts the websocket. -/
def connect_and_run (s : VoiceClientState) :
    Except VoiceError (VoiceClientState × List Action) :=
  match s.endpoint with
  | none => Except.error VoiceError.typeError
  | some e =>
      Except.ok ({ s with wsOpen := true },
        [Action.openTransport ("wss://" ++ e ++ "/?v=" ++ toString VOICE_GATEWAY_VERSION)])

/-- `VoiceClient.set_endpoint`: strips the port, no-ops when unchanged,
otherwise stores the host, closes any open websocket and clears
`_identified`. -/
def set_endpoint (endpoint : String) (s : VoiceClientState) :
    VoiceClientState × List Action :=
  if s.endpoint = some (stripPort endpoint) then (s, [])
  else
    ({ s with endpoint := some (stripPort endpoint), wsOpen := false, identified := false },
     if s.wsOpen then [Action.wsClose none] else [])

/-- `VoiceClient.set_token`: no-ops when unchanged, otherwise stores the token
and, when not identified, opens the transport via `connect_and_run`. -/
def set_token (token : String) (s : VoiceClientState) :
    Except VoiceError (VoiceClientState × List Action) :=
  if s.token = some token then Except.ok (s, [])
  else
    let s1 := { s with token := some token }
    if s1.identified then Except.ok (s1, [])
    else connect_and_run s1

/-- The message of the `VoiceException` raised when the reconnect budget is
exhausted. -/
def reconnectFailMsg : String := "Failed to reconnect after max attempts, giving up"

/-- The message of the bare `Exception` raised when no advertised encryption
mode is supported. -/
def noModeMsg : String := "Failed to find a supported voice mode"

/-- The message of the `VoiceException` raised by `connect` on an empty
channel id. -/
def emptyChannelMsg : String := "cannot connect to an empty channel id"

/-- The message of the `VoiceException` raised by `connect` when the wait for
`CONNECTED` times out. -/
def connectTimeoutMsg : String := "Failed to connect to voice"

/-- Reopening after the backoff: `gevent.sleep(wait_time)` followed by
`connect_and_run`. -/
def afterBackoff (s : VoiceClientState) (acts : List Action) :
    Except VoiceError (VoiceClientState × List Action) :=
  match connect_and_run s with
  | Except.error e => Except.error e
  | Except.ok (s2, a2) => Except.ok (s2, acts ++ a2)

/-- `VoiceClient.on_close`: kill the heartbeat task, drop the websocket, stop
if the session is already `DISCONNECTED` (caller-initiated teardown), otherwise
enter `RECONNECTING`, bump the attempt counter, raise `VoiceException` past the
budget, classify the close code (hard: clear `_identified`, disconnect the UDP
transport when connected, back off 5 s; soft: back off 1 s) and reopen. -/
def on_close (code : Option Nat) (s : VoiceClientState) :
    Except VoiceError (VoiceClientState × List Action) :=
  let s0 := { s with heartbeatTask := false, wsOpen := false }
  if s0.state = VoiceState.DISCONNECTED then Except.ok (s0, [])
  else
    let s1 := { s0 with state := VoiceState.RECONNECTING, reconnects := s0.reconnects + 1 }
    if s1.maxReconnects ≠ 0 ∧ s1.maxReconnects < s1.reconnects then
      Except.error (VoiceError.voiceException reconnectFailMsg s1)
    else
      if isHardClose code then
        let s2 := { s1 with identified := false }
        let p := if s2.udpExists ∧ s2.udpConnected then
                   ({ s2 with udpConnected := false }, [Action.udpDisconnect])
                 else (s2, ([] : List Action))
        afterBackoff p.1 (p.2 ++ [Action.sleep 5])
      else
        afterBackoff s1 [Action.sleep 1]

/-- One iteration of the heartbeat loop: either the forced-reconnect branch
(close the websocket with status 4000, call `on_close(0, ...)` directly, and
return from the loop) or a regular beat (send `HEARTBEAT`, mark
unacknowledged, sleep for the interval, continue looping). -/
inductive HBOutcome where
  | reconnect (acts : List Action) (closeResult : Except VoiceError (VoiceClientState × List Action))
  | loop (s : VoiceClientState) (acts : List Action)
  deriving Repr

/-- `VoiceClient.heartbeat_task`, one loop iteration.  `HBOutcome.reconnect`
means the loop executed `return` (it carries no continuation), after emitting
`ws.close(status=4000)` and invoking `on_close` itself with code `0`. -/
def heartbeat_iteration (interval : Nat) (s : VoiceClientState) : HBOutcome :=
  if s.heartbeatAcknowledged = false then
    HBOutcome.reconnect [Action.wsClose (some 4000)]
      (on_close (some 0) { s with heartbeatAcknowledged := true, wsOpen := false })
  else
    HBOutcome.loop { s with heartbeatAcknowledged := false }
      (send VoiceOPCode.HEARTBEAT s ++ [Action.sleepMs interval])

/-- `VoiceClient.handle_heartbeat`: echo a `HEARTBEAT` immediately. -/
def handle_heartbeat (s : VoiceClientState) : List Action :=
  send VoiceOPCode.HEARTBEAT s

/-- `VoiceClient.handle_heartbeat_acknowledge` (the float latency computation
is outside the embedding). -/
def handle_heartbeat_acknowledge (s : VoiceClientState) : VoiceClientState :=
  { s with heartbeatAcknowledged := true }

/-- `VoiceClient.on_voice_hello`: spawn the heartbeat task and enter
`AUTHENTICATED`. -/
def on_voice_hello (s : VoiceClientState) : VoiceClientState × List Action :=
  ({ s with heartbeatTask := true, state := VoiceState.AUTHENTICATED }, [])

/-- `VoiceClient.on_voice_resumed`: straight to `CONNECTED`. -/
def on_voice_resumed (s : VoiceClientState) : VoiceClientState :=
  { s with state := VoiceState.CONNECTED }

/-- The mode-selection loop of `on_voice_ready`:
`for mode in self.SUPPORTED_MODES: if mode in data['modes']: ... break`.
`order` is the iteration order of the `SUPPORTED_MODES` set. -/
def select_mode (order : List String) (modes : List String) : Option String :=
  order.find? (fun m => modes.contains m)

/-- Python `dict` assignment `d[k] = v` on an insertion-ordered association
list: replace the entry when the key exists, otherwise append. -/
def dictInsert (d : List (Nat × Nat)) (k v : Nat) : List (Nat × Nat) :=
  if d.any (fun p => p.1 = k) then
    d.map (fun p => if p.1 = k then (k, v) else p)
  else d ++ [(k, v)]

/-- The deletion loop of `on_voice_client_disconnect`: walk the dict in
insertion order, `del` the first entry whose value matches, then `break`. -/
def removeFirstByValue (d : List (Nat × Nat)) (v : Nat) : List (Nat × Nat) :=
  match d with
  | [] => []
  | p :: rest => if p.2 = v then rest else p :: removeFirstByValue rest v

/-- `VoiceClient.on_voice_client_connect`: register
`audio_ssrcs[audio_ssrc] = user_id` (the companion `voice_ssrc` is ignored). -/
def on_voice_client_connect (user_id audio_ssrc : Nat) (s : VoiceClientState) :
    VoiceClientState :=
  { s with audioSsrcs := dictInsert s.audioSsrcs audio_ssrc user_id }

/-- `VoiceClient.on_voice_client_disconnect`: remove the first ssrc mapped to
`user_id`. -/
def on_voice_client_disconnect (user_id : Nat) (s : VoiceClientState) :
    VoiceClientState :=
  { s with audioSsrcs := removeFirstByValue s.audioSsrcs user_id }

/-- `VoiceClient.on_voice_speaking`: (re)register the ssrc, decode the
speaking bitmask (`VOICE = 1`, `SOUNDSHARE = 2`, `PRIORITY = 4`) and publish a
`VoiceSpeaking` event on the parent client's event bus. -/
def on_voice_speaking (user_id ssrc flags : Nat) (s : VoiceClientState) :
    VoiceClientState × List Action :=
  ({ s with audioSsrcs := dictInsert s.audioSsrcs ssrc user_id },
   [Action.emitSpeaking user_id (decide (flags &&& 1 ≠ 0)) (decide (flags &&& 2 ≠ 0))
      (decide (flags &&& 4 ≠ 0))])

/-- `VoiceClient.on_voice_sdp`: store the negotiated parameters, push the codec
and the secret key to the UDP transport, enter `CONNECTED`. -/
def on_voice_sdp (mode audio_codec video_codec media_session_id : String)
    (s : VoiceClientState) : VoiceClientState × List Action :=
  ({ s with mode := some mode, audioCodec := some audio_codec,
            videoCodec := some video_codec, transportId := some media_session_id,
            state := VoiceState.CONNECTED },
   [Action.udpSetAudioCodec audio_codec, Action.udpSetupEncryption])

/-- `VoiceClient.on_open`: send `RESUME` when `_identified` else `IDENTIFY`. -/
def on_open (s : VoiceClientState) : List Action :=
  if s.identified then send VoiceOPCode.RESUME s else send VoiceOPCode.IDENTIFY s

/-- `VoiceClient.set_speaking`: send `SPEAKING` with the encoded flags. -/
def set_speaking (s : VoiceClientState) : List Action :=
  send VoiceOPCode.SPEAKING s

/-- The state `disconnect` leaves behind when it runs from a
non-`DISCONNECTED` state: `DISCONNECTED`, websocket dropped, UDP transport
disconnected when it exists, and the session deregistered. -/
def disconnectedResult (s : VoiceClientState) : VoiceClientState :=
  { s with state := VoiceState.DISCONNECTED, wsOpen := false,
           udpConnected := if s.udpExists then false else s.udpConnected,
           inRegistry := false }

/-- The actions `disconnect` emits from a non-`DISCONNECTED` state: the
websocket close when it was open, the best-effort voice-state-update, the UDP
teardown when the transport exists, the registry deletion and the
`VoiceDisconnect` event — in source order. -/
def disconnectActs (s : VoiceClientState) : List Action :=
  (if s.wsOpen then [Action.wsClose none] else [])
    ++ [Action.gatewayVoiceStateUpdate none]
    ++ (if s.udpExists then [Action.udpDisconnect] else [])
    ++ [Action.registryRemove, Action.emitVoiceDisconnect]

/-- `VoiceClient.disconnect`: no-op when already `DISCONNECTED`, otherwise
enter `DISCONNECTED` first (this lets `on_close` recognise a caller-initiated
closure), close the websocket when open, best-effort leave voice on the parent
gateway, disconnect the UDP transport when it exists, delete the session from
the owning registry (`del` raises `KeyError` on a missing key) and publish the
`VoiceDisconnect` event. -/
def disconnect (s : VoiceClientState) :
    Except VoiceError (VoiceClientState × List Action) :=
  if s.state = VoiceState.DISCONNECTED then Except.ok (s, [])
  else
    if s.inRegistry then Except.ok (disconnectedResult s, disconnectActs s)
    else Except.error VoiceError.keyError

/-- `VoiceClient.on_voice_ready`: enter `CONNECTING`, store ssrc/ip/port, set
`_identified`, pick the first supported mode present in the advertised
`modes` (raising a bare `Exception` when none is), run IP discovery over the
UDP transport (`discovery = none` models a falsy discovered ip: the client
disconnects and returns), then send `SELECT_PROTOCOL` and `CLIENT_CONNECT`.
`order` is the iteration order of the `SUPPORTED_MODES` set. -/
def on_voice_ready (dssrc : Nat) (dip : String) (dport : Nat)
    (modes : List String) (order : List String) (discovery : Option (String × Nat))
    (s : VoiceClientState) : Except VoiceError (VoiceClientState × List Action) :=
  let s1 := { s with state := VoiceState.CONNECTING, ssrc := some dssrc,
                     ip := some dip, port := some dport, identified := true }
  match select_mode order modes with
  | none => Except.error (VoiceError.plainException noModeMsg)
  | some m =>
      let s2 := { s1 with mode := some m, udpExists := true }
      match discovery with
      | none => disconnect s2
      | some _ =>
          let s3 := { s2 with udpConnected := true }
          Except.ok (s3, send VoiceOPCode.SELECT_PROTOCOL s3
                         ++ send VoiceOPCode.CLIENT_CONNECT s3)

/-- `VoiceClient.connect`: DMs target the server id; a falsy channel id
(`None` or `0`) raises a typed `VoiceException` carrying the session; an
identical target while `CONNECTED` is a no-op; otherwise send a
voice-state-update (entering `AWAITING_ENDPOINT` unless this is an in-place
move while `CONNECTED`) and block until `CONNECTED`.  `waitOk` stands for the
outcome of `state_emitter.once(CONNECTED, timeout)`: on timeout the client
disconnects and raises. -/
def connect (channel_id : Option Nat) (waitOk : Bool) (s : VoiceClientState) :
    Except VoiceError (VoiceClientState × List Action) :=
  let cid := if s.isDm then some s.serverId else channel_id
  if cid = none ∨ cid = some 0 then
    Except.error (VoiceError.voiceException emptyChannelMsg s)
  else
    if s.channelId = cid ∧ s.state = VoiceState.CONNECTED then Except.ok (s, [])
    else
      let s1 := if s.channelId = cid then s
                else if s.state = VoiceState.CONNECTED then s
                else { s with state := VoiceState.AWAITING_ENDPOINT }
      let acts := [Action.gatewayVoiceStateUpdate cid]
      if waitOk then Except.ok (s1, acts)
      else
        match disconnect s1 with
        | Except.ok (s2, _) =>
            Except.error (VoiceError.voiceException connectTimeoutMsg s2)
        | Except.error e => Except.error e

/-- The operations that can reach a session: inbound opcodes dispatched from
the websocket, websocket lifecycle callbacks, gateway signalling setters, the
public surface, and one heartbeat-loop iteration. -/
inductive Op where
  | close (code : Option Nat)
  | hello
  | ready (dssrc : Nat) (dip : String) (dport : Nat) (modes : List String)
      (order : List String) (discovery : Option (String × Nat))
  | sdp (mode audio_codec video_codec media_session_id : String)
  | resumed
  | hbAck
  | hbRequest
  | speaking (user_id ssrc flags : Nat)
  | clientConnect (user_id audio_ssrc : Nat)
  | clientDisconnect (user_id : Nat)
  | setEndpointOp (e : String)
  | setTokenOp (t : String)
  | wsOpened
  | setSpeakingOp
  | connectOp (channel_id : Option Nat) (waitOk : Bool)
  | disconnectOp
  | hbIter (interval : Nat)
  deriving DecidableEq, Repr

/-- Dispatch one operation to the corresponding embedded method. -/
def step (op : Op) (s : VoiceClientState) :
    Except VoiceError (VoiceClientState × List Action) :=
  match op with
  | Op.close code => on_close code s
  | Op.hello => Except.ok (on_voice_hello s)
  | Op.ready a b c m o d => on_voice_ready a b c m o d s
  | Op.sdp m ac vc tid => Except.ok (on_voice_sdp m ac vc tid s)
  | Op.resumed => Except.ok (on_voice_resumed s, [])
  | Op.hbAck => Except.ok (handle_heartbeat_acknowledge s, [])
  | Op.hbRequest => Except.ok (s, handle_heartbeat s)
  | Op.speaking u ss f => Except.ok (on_voice_speaking u ss f s)
  | Op.clientConnect u ss => Except.ok (on_voice_client_connect u ss s, [])
  | Op.clientDisconnect u => Except.ok (on_voice_client_disconnect u s, [])
  | Op.setEndpointOp e => Except.ok (set_endpoint e s)
  | Op.setTokenOp t => set_token t s
  | Op.wsOpened => Except.ok (s, on_open s)
  | Op.setSpeakingOp => Except.ok (s, set_speaking s)
  | Op.connectOp cid w => connect cid w s
  | Op.disconnectOp => disconnect s
  | Op.hbIter i =>
      match heartbeat_iteration i s with
      | HBOutcome.loop s1 a1 => Except.ok (s1, a1)
      | HBOutcome.reconnect a1 r =>
          match r with
          | Except.error err => Except.error err
          | Except.ok (s2, a2) => Except.ok (s2, a1 ++ a2)

/-- Operations whose handling can run the transport-closure path `on_close`
(the close callback itself, and a heartbeat iteration, which forces one when
the previous beat went unacknowledged). -/
def opInvokesClose (op : Op) : Bool :=
  match op with
  | Op.close _ => true
  | Op.hbIter _ => true
  | _ => false

/-- Run a sequence of operations, accumulating the emitted actions and
propagating the first raised exception. -/
def runOps (ops : List Op) (s : VoiceClientState) :
    Except VoiceError (VoiceClientState × List Action) :=
  match ops with
  | [] => Except.ok (s, [])
  | op :: rest =>
      match step op s with
      | Except.error e => Except.error e
      | Except.ok (s1, a1) =>
          match runOps rest s1 with
          | Except.error e => Except.error e
          | Except.ok (s2, a2) => Except.ok (s2, a1 ++ a2)

/-- The two gateway-signalling setters, in the order the external gateway
happens to deliver them. -/
inductive SetOp where
  | sEnd (e : String)
  | sTok (t : String)
  deriving DecidableEq, Repr

/-- Run a sequence of `set_endpoint`/`set_token` calls. -/
def runSets (ops : List SetOp) (s : VoiceClientState) :
    Except VoiceError (VoiceClientState × List Action) :=
  match ops with
  | [] => Except.ok (s, [])
  | SetOp.sEnd e :: rest =>
      let p := set_endpoint e s
      match runSets rest p.1 with
      | Except.error err => Except.error err
      | Except.ok (s2, a2) => Except.ok (s2, p.2 ++ a2)
  | SetOp.sTok t :: rest =>
      match set_token t s with
      | Except.error err => Except.error err
      | Except.ok (s1, a1) =>
          match runSets rest s1 with
          | Except.error err => Except.error err
          | Except.ok (s2, a2) => Except.ok (s2, a1 ++ a2)

/-- Embedding of `VoiceClient.ssrc_audio`: the base ssrc itself (`none` when
no `READY` stored a base yet; the Python property would then return `None`). -/
def audio_ssrc_of (s : VoiceClientState) : Option Nat :=
  s.ssrc

/-- Embedding of `VoiceClient.ssrc_video`: base + 1 (the Python property
raises `TypeError` when the base is unset; the `none` case models that no
value is produced). -/
def video_ssrc_of (s : VoiceClientState) : Option Nat :=
  s.ssrc.map (fun n => n + 1)

/-- Embedding of `VoiceClient.ssrc_rtx`: base + 2. -/
def rtx_ssrc_of (s : VoiceClientState) : Option Nat :=
  s.ssrc.map (fun n => n + 2)

/-- Embedding of `VoiceClient.ssrc_rtcp`: base + 3. -/
def rtcp_ssrc_of (s : VoiceClientState) : Option Nat :=
  s.ssrc.map (fun n => n + 3)

/-- A concrete fully-connected session used to instantiate theorems on
explicit inputs. -/
def baseState : VoiceClientState :=
  { serverId := 9
    channelId := some 77
    isDm := false
    state := VoiceState.CONNECTED
    token := some "tok"
    endpoint := some "host"
    ssrc := some 100
    ip := some "1.2.3.4"
    port := some 4000
    mode := some "xsalsa20_poly1305"
    audioCodec := some "opus"
    videoCodec := none
    transportId := none
    wsOpen := true
    heartbeatTask := true
    heartbeatAcknowledged := true
    identified := true
    reconnects := 0
    maxReconnects := 5
    udpExists := true
    udpConnected := true
    audioSsrcs := []
    inRegistry := true
    videoEnabled := false }

instance {α β : Type} [DecidableEq α] [DecidableEq β] : DecidableEq (Except α β) :=
  fun a b =>
    match a, b with
    | Except.ok x, Except.ok y =>
        if h : x = y then Decidable.isTrue (by rw [h])
        else Decidable.isFalse (fun hh => h (Except.ok.inj hh))
    | Except.error x, Except.error y =>
        if h : x = y then Decidable.isTrue (by rw [h])
        else Decidable.isFalse (fun hh => h (Except.error.inj hh))
    | Except.ok _, Except.error _ => Decidable.isFalse (fun hh => Except.noConfusion hh)
    | Except.error _, Except.ok _ => Decidable.isFalse (fun hh => Except.noConfusion hh)

/-- The websocket url `connect_and_run` builds for a stored endpoint host. -/
def gatewayUrl (e : String) : String :=
  "wss://" ++ e ++ "/?v=" ++ toString VOICE_GATEWAY_VERSION

theorem connect_and_run_some (s : VoiceClientState) (e : String)
    (h : s.endpoint = some e) :
    connect_and_run s =
      Except.ok ({ s with wsOpen := true }, [Action.openTransport (gatewayUrl e)]) := by
  unfold connect_and_run gatewayUrl
  rw [h]

theorem on_close_soft (code : Option Nat) (s : VoiceClientState) (e : String)
    (h1 : s.state ≠ VoiceState.DISCONNECTED)
    (h2 : s.maxReconnects = 0 ∨ s.reconnects + 1 ≤ s.maxReconnects)
    (h3 : s.endpoint = some e)
    (h4 : isHardClose code = false) :
    on_close code s =
      Except.ok ({ s with heartbeatTask := false, wsOpen := true,
                          state := VoiceState.RECONNECTING,
                          reconnects := s.reconnects + 1 },
        [Action.sleep 1, Action.openTransport (gatewayUrl e)]) := by
  have hb : ¬(s.maxReconnects ≠ 0 ∧ s.maxReconnects < s.reconnects + 1) := by omega
  unfold on_close afterBackoff connect_and_run gatewayUrl
  simp [h1, hb, h4, h3]

theorem on_close_hard (code : Option Nat) (s : VoiceClientState) (e : String)
    (h1 : s.state ≠ VoiceState.DISCONNECTED)
    (h2 : s.maxReconnects = 0 ∨ s.reconnects + 1 ≤ s.maxReconnects)
    (h3 : s.endpoint = some e)
    (h4 : isHardClose code = true)
    (h5 : s.udpExists = true) (h6 : s.udpConnected = true) :
    on_close code s =
      Except.ok ({ s with heartbeatTask := false, wsOpen := true,
                          state := VoiceState.RECONNECTING,
                          reconnects := s.reconnects + 1,
                          identified := false, udpConnected := false },
        [Action.udpDisconnect, Action.sleep 5, Action.openTransport (gatewayUrl e)]) := by
  have hb : ¬(s.maxReconnects ≠ 0 ∧ s.maxReconnects < s.reconnects + 1) := by omega
  unfold on_close afterBackoff connect_and_run gatewayUrl
  simp [h1, hb, h4, h3, h5, h6]

theorem on_close_budget (code : Option Nat) (s : VoiceClientState)
    (h1 : s.state ≠ VoiceState.DISCONNECTED)
    (h2 : s.maxReconnects ≠ 0) (h3 : s.maxReconnects ≤ s.reconnects) :
    on_close code s =
      Except.error (VoiceError.voiceException reconnectFailMsg
        { s with heartbeatTask := false, wsOpen := false,
                 state := VoiceState.RECONNECTING,
                 reconnects := s.reconnects + 1 }) := by
  have hb : s.maxReconnects ≠ 0 ∧ s.maxReconnects < s.reconnects + 1 := ⟨h2, by omega⟩
  unfold on_close
  simp [h1, hb]

/-- Claim C1, counterexample: the close-code classification of `on_close` uses
the range `4000 < code <= 4016`, so code 4016 — which the claim classifies as
soft (it is outside 4001–4015 and is not 1001) — is handled as a hard closure:
`identified` is cleared, the media transport is torn down and the backoff is
5 seconds. -/
theorem claim1_cex :
    ¬((4001 ≤ 4016 ∧ 4016 ≤ 4015) ∨ (4016 : Nat) = 1001)
    ∧ isHardClose (some 4016) = true
    ∧ on_close (some 4016) baseState =
        Except.ok ({ baseState with
                     heartbeatTask := false, wsOpen := true,
                     state := VoiceState.RECONNECTING, reconnects := 1,
                     identified := false, udpConnected := false },
          [Action.udpDisconnect, Action.sleep 5,
           Action.openTransport (gatewayUrl "host")]) := by
  refine ⟨by decide, rfl, ?_⟩
  decide

/-- Claim C1, amended: for a transport closure handled while the session is
not `DISCONNECTED` (and within the reconnect budget, with an endpoint stored
and the media transport connected), a close code in the range 4001–4016
inclusive (the code's `4000 < code <= 4016`) or equal to 1001 is hard:
`identified` is cleared, the media transport is disconnected and the backoff is
5 seconds; every other code — including an absent or zero code, and in
particular 1000 — is soft: `identified` is preserved and the backoff is
1 second. -/
theorem claim1_corrected (c : Nat) (s : VoiceClientState) (e : String)
    (h1 : s.state ≠ VoiceState.DISCONNECTED)
    (h2 : s.maxReconnects = 0 ∨ s.reconnects + 1 ≤ s.maxReconnects)
    (h3 : s.endpoint = some e)
    (h5 : s.udpExists = true) (h6 : s.udpConnected = true) :
    (((4000 < c ∧ c ≤ 4016) ∨ c = 1001) →
        on_close (some c) s =
          Except.ok ({ s with heartbeatTask := false, wsOpen := true,
                              state := VoiceState.RECONNECTING,
                              reconnects := s.reconnects + 1,
                              identified := false, udpConnected := false },
            [Action.udpDisconnect, Action.sleep 5, Action.openTransport (gatewayUrl e)]))
    ∧ (¬((4000 < c ∧ c ≤ 4016) ∨ c = 1001) →
        on_close (some c) s =
          Except.ok ({ s with heartbeatTask := false, wsOpen := true,
                              state := VoiceState.RECONNECTING,
                              reconnects := s.reconnects + 1 },
            [Action.sleep 1, Action.openTransport (gatewayUrl e)]))
    ∧ on_close none s =
        Except.ok ({ s with heartbeatTask := false, wsOpen := true,
                            state := VoiceState.RECONNECTING,
                            reconnects := s.reconnects + 1 },
          [Action.sleep 1, Action.openTransport (gatewayUrl e)]) := by
  refine ⟨?_, ?_, ?_⟩
  · intro hr
    have hh : isHardClose (some c) = true := by
      simp only [isHardClose, Bool.and_eq_true, Bool.or_eq_true, decide_eq_true_eq]
      omega
    exact on_close_hard (some c) s e h1 h2 h3 hh h5 h6
  · intro hr
    have hh : isHardClose (some c) = false := by
      simp only [isHardClose, Bool.and_eq_false_iff, Bool.or_eq_false_iff,
        decide_eq_false_iff_not]
      omega
    exact on_close_soft (some c) s e h1 h2 h3 hh
  · exact on_close_soft none s e h1 h2 h3 rfl

/-- Claim C1, witness: code 4006 (hard by range) clears `identified` and backs
off 5 seconds, code 1000 (soft) preserves it and backs off 1 second, on a
concrete connected session. -/
theorem claim1_witness :
    on_close (some 4006) baseState =
      Except.ok ({ baseState with
                   heartbeatTask := false, wsOpen := true,
                   state := VoiceState.RECONNECTING, reconnects := 1,
                   identified := false, udpConnected := false },
        [Action.udpDisconnect, Action.sleep 5, Action.openTransport (gatewayUrl "host")])
    ∧ on_close (some 1000) baseState =
        Except.ok ({ baseState with
                     heartbeatTask := false, wsOpen := true,
                     state := VoiceState.RECONNECTING, reconnects := 1 },
          [Action.sleep 1, Action.openTransport (gatewayUrl "host")]) :=
  ⟨(claim1_corrected 4006 baseState "host" (by decide) (Or.inr (by decide)) rfl rfl rfl).1
      (by decide),
   (claim1_corrected 1000 baseState "host" (by decide) (Or.inr (by decide)) rfl rfl rfl).2.1
      (by decide)⟩

/-- Claim C2: in a heartbeat-loop iteration where the previous heartbeat was
not acknowledged, the session force-closes the transport with the
distinguished status 4000 and synchronously invokes the closure handler
`on_close` itself with code 0, and the outcome is `HBOutcome.reconnect` —
the loop's `return`, which carries no continuation, so no second forced
reconnect can arise from the same missed acknowledgment. -/
theorem claim2 (interval : Nat) (s : VoiceClientState)
    (hack : s.heartbeatAcknowledged = false) :
    heartbeat_iteration interval s =
      HBOutcome.reconnect [Action.wsClose (some 4000)]
        (on_close (some 0) { s with heartbeatAcknowledged := true, wsOpen := false }) := by
  unfold heartbeat_iteration
  simp [hack]

/-- Claim C2, witness: the forced-reconnect iteration on a concrete session
with a missed acknowledgment. -/
theorem claim2_witness :
    heartbeat_iteration 41250 { baseState with heartbeatAcknowledged := false } =
      HBOutcome.reconnect [Action.wsClose (some 4000)]
        (on_close (some 0)
          { baseState with heartbeatAcknowledged := true, wsOpen := false }) :=
  claim2 41250 { baseState with heartbeatAcknowledged := false } rfl

/-- Claim C9: a heartbeat-forced closure closes the transport with status 4000
but invokes `on_close` with code 0; code 0 is falsy, so the closure is
classified soft — `identified` is preserved (the result state's `identified`
field is untouched) and the backoff is 1 second. -/
theorem claim9 (interval : Nat) (s : VoiceClientState) (e : String)
    (hack : s.heartbeatAcknowledged = false)
    (hst : s.state ≠ VoiceState.DISCONNECTED)
    (hbud : s.maxReconnects = 0 ∨ s.reconnects + 1 ≤ s.maxReconnects)
    (hend : s.endpoint = some e) :
    heartbeat_iteration interval s =
      HBOutcome.reconnect [Action.wsClose (some 4000)]
        (Except.ok ({ s with
                      heartbeatAcknowledged := true, heartbeatTask := false,
                      wsOpen := true, state := VoiceState.RECONNECTING,
                      reconnects := s.reconnects + 1 },
          [Action.sleep 1, Action.openTransport (gatewayUrl e)]))
    ∧ isHardClose (some 0) = false := by
  have hsoft := on_close_soft (some 0)
    { s with heartbeatAcknowledged := true, wsOpen := false } e hst hbud hend rfl
  refine ⟨?_, rfl⟩
  unfold heartbeat_iteration
  simp [hack, hsoft]

/-- Claim C9, witness: on a concrete identified session, the forced closure
reopens after a 1 second backoff with `identified` still `true` in the result
state. -/
theorem claim9_witness :
    heartbeat_iteration 41250 { baseState with heartbeatAcknowledged := false } =
      HBOutcome.reconnect [Action.wsClose (some 4000)]
        (Except.ok ({ baseState with
                      heartbeatAcknowledged := true,
                      heartbeatTask := false, wsOpen := true,
                      state := VoiceState.RECONNECTING, reconnects := 1 },
          [Action.sleep 1, Action.openTransport (gatewayUrl "host")]))
    ∧ isHardClose (some 0) = false :=
  claim9 41250 { baseState with heartbeatAcknowledged := false } "host" rfl
    (by decide) (Or.inr (by decide)) rfl

/-- Claim C8: for every session whose base ssrc is set, the derived
synchronization sources are the base plus 0, 1, 2 and 3 for audio, video,
retransmit and control respectively. -/
theorem claim8 (s : VoiceClientState) (b : Nat) (h : s.ssrc = some b) :
    audio_ssrc_of s = some (b + 0) ∧ video_ssrc_of s = some (b + 1)
    ∧ rtx_ssrc_of s = some (b + 2) ∧ rtcp_ssrc_of s = some (b + 3) := by
  simp [audio_ssrc_of, video_ssrc_of, rtx_ssrc_of, rtcp_ssrc_of, h]

/-- Claim C8, witness: the derived ssrcs of a concrete session with base
ssrc 100. -/
theorem claim8_witness :
    audio_ssrc_of baseState = some (100 + 0)
    ∧ video_ssrc_of baseState = some (100 + 1)
    ∧ rtx_ssrc_of baseState = some (100 + 2)
    ∧ rtcp_ssrc_of baseState = some (100 + 3) :=
  claim8 baseState 100 rfl

theorem map_keep_of_no_key (d : List (Nat × Nat)) (k v : Nat)
    (hd : ∀ p ∈ d, p.1 ≠ k) :
    d.map (fun p => if p.1 = k then (k, v) else p) = d := by
  induction d with
  | nil => rfl
  | cons q rest ih =>
      simp only [List.map_cons]
      rw [if_neg (hd q (List.mem_cons_self q rest)),
        ih (fun p hp => hd p (List.mem_cons_of_mem q hp))]

theorem dictInsert_cons_ne (q : Nat × Nat) (d : List (Nat × Nat)) (k v : Nat)
    (h : q.1 ≠ k) : dictInsert (q :: d) k v = q :: dictInsert d k v := by
  by_cases hd : (d.any fun p => decide (p.1 = k)) = true
  · simp [dictInsert, h, hd]
  · simp [dictInsert, h, hd]

theorem dictInsert_cons_eq (q : Nat × Nat) (d : List (Nat × Nat)) (k v : Nat)
    (h : q.1 = k) (hd : ∀ p ∈ d, p.1 ≠ k) :
    dictInsert (q :: d) k v = (k, v) :: d := by
  simp [dictInsert, h, map_keep_of_no_key d k v hd]

theorem removeFirst_dictInsert_all_ne (u k : Nat) (d : List (Nat × Nat))
    (hvals : ∀ p ∈ d, p.2 ≠ u) (hkeys : (d.map Prod.fst).Nodup) :
    ∀ p ∈ removeFirstByValue (dictInsert d k u) u, p.2 ≠ u := by
  induction d with
  | nil =>
      intro p hp
      simp [dictInsert, removeFirstByValue] at hp
  | cons q rest ih =>
      rw [List.map_cons] at hkeys
      have hnotin : q.1 ∉ rest.map Prod.fst := (List.nodup_cons.mp hkeys).1
      have htail : (rest.map Prod.fst).Nodup := (List.nodup_cons.mp hkeys).2
      intro p hp
      by_cases hqk : q.1 = k
      · have hrest : ∀ r ∈ rest, r.1 ≠ k := by
          intro r hr hcontra
          exact hnotin (hqk ▸ hcontra ▸ List.mem_map_of_mem Prod.fst hr)
        rw [dictInsert_cons_eq q rest k u hqk hrest] at hp
        simp only [removeFirstByValue, if_pos rfl] at hp
        exact hvals p (List.mem_cons_of_mem q hp)
      · rw [dictInsert_cons_ne q rest k u hqk] at hp
        have hq2 : q.2 ≠ u := hvals q (List.mem_cons_self q rest)
        simp only [removeFirstByValue, if_neg hq2] at hp
        rcases List.mem_cons.mp hp with rfl | hp2
        · exact hq2
        · exact ih (fun r hr => hvals r (List.mem_cons_of_mem q hr)) htail p hp2

/-- Claim C7: `CLIENT_CONNECT{user_id: u, audio_ssrc: k}` followed by
`CLIENT_DISCONNECT{user_id: u}` leaves the SSRC registry with no mapping whose
value is `u`, provided no other mapping for `u` was present beforehand (the
registry is a dict, so its keys are distinct). -/
theorem claim7 (u k : Nat) (s : VoiceClientState)
    (hvals : (s.audioSsrcs.all fun p => p.2 != u) = true)
    (hkeys : (s.audioSsrcs.map Prod.fst).Nodup) :
    ((on_voice_client_disconnect u (on_voice_client_connect u k s)).audioSsrcs.all
      fun p => p.2 != u) = true := by
  have hv : ∀ p ∈ s.audioSsrcs, p.2 ≠ u := by
    intro p hp
    simpa using List.all_eq_true.mp hvals p hp
  have hmain := removeFirst_dictInsert_all_ne u k s.audioSsrcs hv hkeys
  simp only [on_voice_client_disconnect, on_voice_client_connect]
  rw [List.all_eq_true]
  intro p hp
  simpa using hmain p hp

/-- Claim C7, witness: connect then disconnect for user 7 on a registry
already holding an unrelated mapping for user 3. -/
theorem claim7_witness :
    ((on_voice_client_disconnect 7 (on_voice_client_connect 7 42
        { baseState with audioSsrcs := [(55, 3)] })).audioSsrcs.all
      fun p => p.2 != 7) = true :=
  claim7 7 42 { baseState with audioSsrcs := [(55, 3)] } (by decide) (by decide)

theorem find_eq_of_mem_unique (p : String → Bool) (l : List String) (x : String)
    (hmem : x ∈ l) (hx : p x = true) (huniq : ∀ a ∈ l, p a = true → a = x) :
    l.find? p = some x := by
  induction l with
  | nil => cases hmem
  | cons a rest ih =>
      by_cases ha : p a = true
      · have hax : a = x := huniq a (List.mem_cons_self a rest) ha
        subst hax
        simp [List.find?, ha]
      · have hx2 : x ∈ rest := by
          rcases List.mem_cons.mp hmem with rfl | hm
          · exact absurd hx ha
          · exact hm
        rw [List.find?_cons_of_neg rest ha]
        exact ih hx2 (fun a' h' hp' => huniq a' (List.mem_cons_of_mem a h') hp')

/-- Claim C4, counterexample: `SUPPORTED_MODES` is a Python `set`, not a
fixed-priority list, so the chosen mode is not a function of the advertised
set alone — two iteration orders of the same set pick different modes from the
same advertised modes (here an advertised set containing both the lite and the
suffix variant). -/
theorem claim4_cex :
    List.Perm ["xsalsa20_poly1305_lite", "xsalsa20_poly1305_suffix", "xsalsa20_poly1305"]
      SUPPORTED_MODES
    ∧ List.Perm ["xsalsa20_poly1305_suffix", "xsalsa20_poly1305_lite", "xsalsa20_poly1305"]
      SUPPORTED_MODES
    ∧ select_mode ["xsalsa20_poly1305_lite", "xsalsa20_poly1305_suffix", "xsalsa20_poly1305"]
        ["xsalsa20_poly1305_lite", "xsalsa20_poly1305_suffix"] = some "xsalsa20_poly1305_lite"
    ∧ select_mode ["xsalsa20_poly1305_suffix", "xsalsa20_poly1305_lite", "xsalsa20_poly1305"]
        ["xsalsa20_poly1305_lite", "xsalsa20_poly1305_suffix"] = some "xsalsa20_poly1305_suffix"
    ∧ "xsalsa20_poly1305_lite" ≠ "xsalsa20_poly1305_suffix" := by
  refine ⟨by decide, by decide, rfl, rfl, by decide⟩

/-- Claim C4, amended: on READY the mode is the first element of the
`SUPPORTED_MODES` set's (unspecified) iteration order that is present in the
server-advertised modes; when the only overlap is `xsalsa20_poly1305` that
mode is chosen regardless of the order, and when the advertised set is
disjoint from all supported modes the handshake fails with the bare
no-supported-mode `Exception`. -/
theorem claim4_corrected (order modes : List String)
    (dssrc : Nat) (dip : String) (dport : Nat) (discovery : Option (String × Nat))
    (s : VoiceClientState)
    (hperm : List.Perm order SUPPORTED_MODES)
    (hdisj : ∀ m ∈ SUPPORTED_MODES, modes.contains m = false) :
    select_mode order ["xsalsa20_poly1305"] = some "xsalsa20_poly1305"
    ∧ select_mode order modes = none
    ∧ on_voice_ready dssrc dip dport modes order discovery s =
        Except.error (VoiceError.plainException noModeMsg) := by
  have hsel1 : select_mode order ["xsalsa20_poly1305"] = some "xsalsa20_poly1305" := by
    apply find_eq_of_mem_unique
    · exact hperm.mem_iff.mpr (by decide)
    · decide
    · intro a ha hpa
      have haS : a ∈ SUPPORTED_MODES := hperm.subset ha
      simp only [SUPPORTED_MODES, List.mem_cons, List.not_mem_nil, or_false] at haS
      rcases haS with rfl | rfl | rfl
      · exact absurd hpa (by decide)
      · exact absurd hpa (by decide)
      · rfl
  have hsel2 : select_mode order modes = none := by
    unfold select_mode
    rw [List.find?_eq_none]
    intro a ha
    have haS : a ∈ SUPPORTED_MODES := hperm.subset ha
    simpa using hdisj a haS
  refine ⟨hsel1, hsel2, ?_⟩
  unfold on_voice_ready
  simp [hsel2]

/-- Claim C4, witness: a shuffled iteration order of the supported-modes set,
an advertised set whose only overlap is `xsalsa20_poly1305`, and a disjoint
advertised set that makes `on_voice_ready` raise the no-supported-mode
error. -/
theorem claim4_witness :
    select_mode ["xsalsa20_poly1305_suffix", "xsalsa20_poly1305", "xsalsa20_poly1305_lite"]
      ["xsalsa20_poly1305"] = some "xsalsa20_poly1305"
    ∧ select_mode ["xsalsa20_poly1305_suffix", "xsalsa20_poly1305", "xsalsa20_poly1305_lite"]
        ["aead_aes256_gcm"] = none
    ∧ on_voice_ready 100 "1.2.3.4" 50000 ["aead_aes256_gcm"]
        ["xsalsa20_poly1305_suffix", "xsalsa20_poly1305", "xsalsa20_poly1305_lite"]
        none baseState = Except.error (VoiceError.plainException noModeMsg) :=
  claim4_corrected ["xsalsa20_poly1305_suffix", "xsalsa20_poly1305", "xsalsa20_poly1305_lite"]
    ["aead_aes256_gcm"] 100 "1.2.3.4" 50000 none baseState (by decide) (by decide)

/-- Claim C6: `disconnect` is idempotent — a no-op from `DISCONNECTED`, and
from any non-`DISCONNECTED` registered state a first call enters
`DISCONNECTED`, emits exactly one `VoiceDisconnect` notification, removes the
session from the owning registry exactly once, and a second call right after
is a no-op. -/
theorem claim6 (s : VoiceClientState) (hreg : s.inRegistry = true) :
    (s.state = VoiceState.DISCONNECTED → disconnect s = Except.ok (s, []))
    ∧ (s.state ≠ VoiceState.DISCONNECTED →
        disconnect s = Except.ok (disconnectedResult s, disconnectActs s)
        ∧ (disconnectActs s).count Action.emitVoiceDisconnect = 1
        ∧ (disconnectActs s).count Action.registryRemove = 1
        ∧ (disconnectedResult s).state = VoiceState.DISCONNECTED
        ∧ (disconnectedResult s).inRegistry = false
        ∧ disconnect (disconnectedResult s) =
            Except.ok (disconnectedResult s, [])) := by
  constructor
  · intro h
    simp [disconnect, h]
  · intro h
    refine ⟨by simp [disconnect, h, hreg], ?_, ?_, rfl, rfl, by simp [disconnect, disconnectedResult]⟩
    · cases hw : s.wsOpen <;> cases hu : s.udpExists <;> simp [disconnectActs, hw, hu]
    · cases hw : s.wsOpen <;> cases hu : s.udpExists <;> simp [disconnectActs, hw, hu]

/-- Claim C6, witness: two successive `disconnect` calls on a concrete
connected session. -/
theorem claim6_witness :
    disconnect baseState = Except.ok (disconnectedResult baseState, disconnectActs baseState)
    ∧ (disconnectActs baseState).count Action.emitVoiceDisconnect = 1
    ∧ (disconnectActs baseState).count Action.registryRemove = 1
    ∧ (disconnectedResult baseState).state = VoiceState.DISCONNECTED
    ∧ (disconnectedResult baseState).inRegistry = false
    ∧ disconnect (disconnectedResult baseState) =
        Except.ok (disconnectedResult baseState, []) :=
  (claim6 baseState rfl).2 (by decide)

/-- Claim C3, counterexample: when the reconnect budget is exceeded, the
raised `VoiceException` carries a session that is in `RECONNECTING` — not
`DISCONNECTED` — and still present in the owning client's registry; and the
no-supported-mode failure is a bare `Exception`, not a typed error carrying
the session. -/
theorem claim3_cex :
    on_close (some 1000) { baseState with reconnects := 5 } =
      Except.error (VoiceError.voiceException reconnectFailMsg
        { baseState with
          reconnects := 6, heartbeatTask := false, wsOpen := false,
          state := VoiceState.RECONNECTING })
    ∧ ({ baseState with
         reconnects := 6, heartbeatTask := false, wsOpen := false,
         state := VoiceState.RECONNECTING } : VoiceClientState).state ≠
        VoiceState.DISCONNECTED
    ∧ ({ baseState with
         reconnects := 6, heartbeatTask := false, wsOpen := false,
         state := VoiceState.RECONNECTING } : VoiceClientState).inRegistry = true
    ∧ on_voice_ready 100 "1.2.3.4" 50000 ["aead_aes256_gcm"] SUPPORTED_MODES none
        baseState = Except.error (VoiceError.plainException noModeMsg) := by
  refine ⟨by decide, by decide, by decide, by decide⟩

/-- Claim C3, amended: the reconnect-budget and empty-channel-id failures
raise the typed `VoiceException` carrying the affected session, while the
no-supported-mode failure raises a bare untyped `Exception`; in no case does
the session transition to `DISCONNECTED` or leave the owning registry at the
moment of the raise — the budget failure leaves it in `RECONNECTING` with its
registry membership unchanged, and the empty-channel failure leaves the
session state entirely unchanged. -/
theorem claim3_corrected
    (s : VoiceClientState) (code : Option Nat)
    (h1 : s.state ≠ VoiceState.DISCONNECTED)
    (h2 : s.maxReconnects ≠ 0) (h3 : s.maxReconnects ≤ s.reconnects)
    (t : VoiceClientState) (cid : Option Nat) (w : Bool)
    (h4 : t.isDm = false) (h5 : cid = none ∨ cid = some 0)
    (u : VoiceClientState) (dssrc : Nat) (dip : String) (dport : Nat)
    (modes order : List String) (discovery : Option (String × Nat))
    (h6 : select_mode order modes = none) :
    (on_close code s = Except.error (VoiceError.voiceException reconnectFailMsg
        { s with heartbeatTask := false, wsOpen := false,
                 state := VoiceState.RECONNECTING, reconnects := s.reconnects + 1 })
      ∧ ({ s with
           heartbeatTask := false, wsOpen := false,
           state := VoiceState.RECONNECTING, reconnects := s.reconnects + 1 }
           : VoiceClientState).state ≠ VoiceState.DISCONNECTED
      ∧ ({ s with
           heartbeatTask := false, wsOpen := false,
           state := VoiceState.RECONNECTING, reconnects := s.reconnects + 1 }
           : VoiceClientState).inRegistry = s.inRegistry)
    ∧ connect cid w t = Except.error (VoiceError.voiceException emptyChannelMsg t)
    ∧ on_voice_ready dssrc dip dport modes order discovery u =
        Except.error (VoiceError.plainException noModeMsg) := by
  refine ⟨⟨on_close_budget code s h1 h2 h3,
    fun hcon => VoiceState.noConfusion hcon, rfl⟩, ?_, ?_⟩
  · rcases h5 with rfl | rfl <;> simp [connect, h4]
  · unfold on_voice_ready
    simp [h6]

/-- Claim C3, witness: the three fatal raises on concrete inputs — an
exhausted budget, a `connect` on an empty channel id, and a `READY` whose
advertised modes overlap no supported mode. -/
theorem claim3_witness :
    (on_close none { baseState with reconnects := 3, maxReconnects := 3 } =
        Except.error (VoiceError.voiceException reconnectFailMsg
          { baseState with
            reconnects := 4, maxReconnects := 3, heartbeatTask := false,
            wsOpen := false, state := VoiceState.RECONNECTING })
      ∧ ({ baseState with
           reconnects := 4, maxReconnects := 3, heartbeatTask := false,
           wsOpen := false, state := VoiceState.RECONNECTING }
           : VoiceClientState).state ≠ VoiceState.DISCONNECTED
      ∧ ({ baseState with
           reconnects := 4, maxReconnects := 3, heartbeatTask := false,
           wsOpen := false, state := VoiceState.RECONNECTING }
           : VoiceClientState).inRegistry =
          ({ baseState with reconnects := 3, maxReconnects := 3 }
            : VoiceClientState).inRegistry)
    ∧ connect none false baseState =
        Except.error (VoiceError.voiceException emptyChannelMsg baseState)
    ∧ on_voice_ready 1 "9.9.9.9" 50001 ["aead_xchacha20_poly1305"] SUPPORTED_MODES
        none baseState = Except.error (VoiceError.plainException noModeMsg) :=
  claim3_corrected { baseState with reconnects := 3, maxReconnects := 3 } none
    (by decide) (by decide) (by decide) baseState none false rfl (Or.inl rfl)
    baseState 1 "9.9.9.9" 50001 ["aead_xchacha20_poly1305"] SUPPORTED_MODES none
    (by decide)

theorem set_endpoint_wsOpen_inv (e : String) (s : VoiceClientState)
    (hinv : s.wsOpen = true → s.endpoint.isSome = true ∧ s.token.isSome = true) :
    (set_endpoint e s).1.wsOpen = true →
      (set_endpoint e s).1.endpoint.isSome = true
      ∧ (set_endpoint e s).1.token.isSome = true := by
  by_cases h : s.endpoint = some (stripPort e)
  · simpa [set_endpoint, h] using hinv
  · simp [set_endpoint, h]

theorem set_token_wsOpen_inv (t : String) (s s1 : VoiceClientState) (a1 : List Action)
    (hinv : s.wsOpen = true → s.endpoint.isSome = true ∧ s.token.isSome = true)
    (h : set_token t s = Except.ok (s1, a1)) :
    s1.wsOpen = true → s1.endpoint.isSome = true ∧ s1.token.isSome = true := by
  unfold set_token at h
  by_cases ht : s.token = some t
  · simp only [if_pos ht, Except.ok.injEq, Prod.mk.injEq] at h
    obtain ⟨rfl, rfl⟩ := h
    exact hinv
  · rw [if_neg ht] at h
    by_cases hid : s.identified = true
    · simp only [hid, if_pos, Except.ok.injEq, Prod.mk.injEq] at h
      obtain ⟨rfl, rfl⟩ := h
      intro hw
      exact ⟨(hinv hw).1, rfl⟩
    · cases he : s.endpoint with
      | none => simp [connect_and_run, he, hid] at h
      | some e0 =>
          simp only [connect_and_run, he, hid, if_neg, Bool.false_eq_true,
            Except.ok.injEq, Prod.mk.injEq] at h
          obtain ⟨rfl, rfl⟩ := h
          intro _
          exact ⟨by simp [he], rfl⟩

theorem runSets_inv (ops : List SetOp) (s s2 : VoiceClientState) (acts : List Action)
    (hinv : s.wsOpen = true → s.endpoint.isSome = true ∧ s.token.isSome = true)
    (h : runSets ops s = Except.ok (s2, acts)) :
    s2.wsOpen = true → s2.endpoint.isSome = true ∧ s2.token.isSome = true := by
  induction ops generalizing s acts with
  | nil =>
      simp only [runSets, Except.ok.injEq, Prod.mk.injEq] at h
      obtain ⟨rfl, rfl⟩ := h
      exact hinv
  | cons op rest ih =>
      cases op with
      | sEnd e =>
          simp only [runSets] at h
          cases hr : runSets rest (set_endpoint e s).1 with
          | error err => rw [hr] at h; cases h
          | ok pr =>
              rw [hr] at h
              obtain ⟨s3, a3⟩ := pr
              simp only [Except.ok.injEq, Prod.mk.injEq] at h
              obtain ⟨rfl, rfl⟩ := h
              exact ih (set_endpoint e s).1 a3 (set_endpoint_wsOpen_inv e s hinv) hr
      | sTok t =>
          simp only [runSets] at h
          cases ht : set_token t s with
          | error err =>
              simp only [ht] at h
              exact Except.noConfusion h
          | ok pt =>
              obtain ⟨st, at1⟩ := pt
              simp only [ht] at h
              cases hr : runSets rest st with
              | error err =>
                  simp only [hr] at h
                  exact Except.noConfusion h
              | ok pr =>
                  obtain ⟨s3, a3⟩ := pr
                  simp only [hr, Except.ok.injEq, Prod.mk.injEq] at h
                  obtain ⟨rfl, rfl⟩ := h
                  exact ih st a3 (set_token_wsOpen_inv t s st at1 hinv ht) hr

/-- Claim C5: over every interleaving of `set_endpoint` and `set_token` calls
starting from a freshly constructed session, whenever the transport is open
both the endpoint and the token are present on the session — the transport is
never opened before both have arrived. -/
theorem claim5 (ops : List SetOp) (sid : Nat) (dm : Bool) (m : Nat)
    (s2 : VoiceClientState) (acts : List Action)
    (h : runSets ops (initState sid dm m) = Except.ok (s2, acts))
    (hw : s2.wsOpen = true) :
    s2.endpoint.isSome = true ∧ s2.token.isSome = true :=
  runSets_inv ops (initState sid dm m) s2 acts
    (fun hfalse => by simp [initState] at hfalse) h hw

/-- Claim C5, witness: the endpoint arriving before the token; the transport
opens on the `set_token` call with both present. -/
theorem claim5_witness :
    ({ initState 7 false 5 with
       endpoint := some "example", token := some "tok",
       wsOpen := true } : VoiceClientState).endpoint.isSome = true
    ∧ ({ initState 7 false 5 with
         endpoint := some "example", token := some "tok",
         wsOpen := true } : VoiceClientState).token.isSome = true :=
  claim5 [SetOp.sEnd "example:443", SetOp.sTok "tok"] 7 false 5
    { initState 7 false 5 with
      endpoint := some "example", token := some "tok", wsOpen := true }
    [Action.openTransport (gatewayUrl "example")] (by decide) rfl

theorem disconnect_reconnects (s s2 : VoiceClientState) (acts : List Action)
    (h : disconnect s = Except.ok (s2, acts)) : s2.reconnects = s.reconnects := by
  unfold disconnect at h
  split at h
  · simp only [Except.ok.injEq, Prod.mk.injEq] at h
    obtain ⟨rfl, rfl⟩ := h
    rfl
  · split at h
    · simp only [Except.ok.injEq, Prod.mk.injEq] at h
      obtain ⟨rfl, rfl⟩ := h
      rfl
    · exact Except.noConfusion h

theorem step_no_close_reconnects (op : Op) (s s2 : VoiceClientState) (acts : List Action)
    (hop : opInvokesClose op = false)
    (h : step op s = Except.ok (s2, acts)) : s2.reconnects = s.reconnects := by
  cases op with
  | close code => simp [opInvokesClose] at hop
  | hbIter i => simp [opInvokesClose] at hop
  | hello =>
      simp [step, on_voice_hello] at h
      obtain ⟨rfl, -⟩ := h
      rfl
  | ready a b c m o d =>
      cases hm : select_mode o m with
      | none =>
          simp [step, on_voice_ready, hm] at h
      | some md =>
          cases d with
          | none =>
              simp only [step] at h
              unfold on_voice_ready at h
              simp only [hm] at h
              have hd := disconnect_reconnects _ s2 acts h
              exact hd
          | some pr =>
              simp [step, on_voice_ready, hm] at h
              obtain ⟨rfl, -⟩ := h
              rfl
  | sdp m ac vc tid =>
      simp [step, on_voice_sdp] at h
      obtain ⟨rfl, -⟩ := h
      rfl
  | resumed =>
      simp [step, on_voice_resumed] at h
      obtain ⟨rfl, -⟩ := h
      rfl
  | hbAck =>
      simp [step, handle_heartbeat_acknowledge] at h
      obtain ⟨rfl, -⟩ := h
      rfl
  | hbRequest =>
      simp [step] at h
      obtain ⟨rfl, -⟩ := h
      rfl
  | speaking u ss f =>
      simp [step, on_voice_speaking] at h
      obtain ⟨rfl, -⟩ := h
      rfl
  | clientConnect u ss =>
      simp [step, on_voice_client_connect] at h
      obtain ⟨rfl, -⟩ := h
      rfl
  | clientDisconnect u =>
      simp [step, on_voice_client_disconnect] at h
      obtain ⟨rfl, -⟩ := h
      rfl
  | setEndpointOp e =>
      by_cases he : s.endpoint = some (stripPort e)
      · simp [step, set_endpoint, he] at h
        obtain ⟨rfl, -⟩ := h
        rfl
      · simp [step, set_endpoint, he] at h
        obtain ⟨rfl, -⟩ := h
        rfl
  | setTokenOp t =>
      by_cases ht : s.token = some t
      · simp [step, set_token, ht] at h
        obtain ⟨rfl, -⟩ := h
        rfl
      · by_cases hid : s.identified = true
        · simp [step, set_token, ht, hid] at h
          obtain ⟨rfl, -⟩ := h
          rfl
        · cases he : s.endpoint with
          | none => simp [step, set_token, connect_and_run, ht, hid, he] at h
          | some e0 =>
              simp [step, set_token, connect_and_run, ht, hid, he] at h
              obtain ⟨rfl, -⟩ := h
              rfl
  | wsOpened =>
      simp [step] at h
      obtain ⟨rfl, -⟩ := h
      rfl
  | setSpeakingOp =>
      simp [step] at h
      obtain ⟨rfl, -⟩ := h
      rfl
  | disconnectOp =>
      simp only [step] at h
      exact disconnect_reconnects s s2 acts h
  | connectOp cid w =>
      simp only [step, connect] at h
      by_cases hfalsy : (if s.isDm then some s.serverId else cid) = none
          ∨ (if s.isDm then some s.serverId else cid) = some 0
      · simp only [if_pos hfalsy] at h
        exact Except.noConfusion h
      · simp only [if_neg hfalsy] at h
        by_cases hsame : s.channelId = (if s.isDm then some s.serverId else cid)
            ∧ s.state = VoiceState.CONNECTED
        · simp only [if_pos hsame, Except.ok.injEq, Prod.mk.injEq] at h
          obtain ⟨rfl, -⟩ := h
          rfl
        · simp only [if_neg hsame] at h
          by_cases hw : w = true
          · simp only [if_pos hw, Except.ok.injEq, Prod.mk.injEq] at h
            obtain ⟨rfl, -⟩ := h
            by_cases h1 : s.channelId = (if s.isDm then some s.serverId else cid)
            · simp [h1]
            · by_cases h2 : s.state = VoiceState.CONNECTED
              · simp [h1, h2]
              · simp [h1, h2]
          · simp only [if_neg hw] at h
            split at h <;> exact Except.noConfusion h

theorem on_close_endpoint_missing (code : Option Nat) (s : VoiceClientState)
    (h1 : s.state ≠ VoiceState.DISCONNECTED)
    (h2 : s.maxReconnects = 0 ∨ s.reconnects + 1 ≤ s.maxReconnects)
    (he : s.endpoint = none) :
    on_close code s = Except.error VoiceError.typeError := by
  have hb : ¬(s.maxReconnects ≠ 0 ∧ s.maxReconnects < s.reconnects + 1) := by omega
  unfold on_close afterBackoff connect_and_run
  cases hh : isHardClose code
  · simp [h1, hb, hh, he]
  · by_cases hu : s.udpExists = true ∧ s.udpConnected = true
    · simp [h1, hb, hh, hu, he]
    · simp [h1, hb, hh, hu, he]

theorem on_close_hard_noudp (code : Option Nat) (s : VoiceClientState) (e : String)
    (h1 : s.state ≠ VoiceState.DISCONNECTED)
    (h2 : s.maxReconnects = 0 ∨ s.reconnects + 1 ≤ s.maxReconnects)
    (h3 : s.endpoint = some e)
    (h4 : isHardClose code = true)
    (hu : ¬(s.udpExists = true ∧ s.udpConnected = true)) :
    on_close code s =
      Except.ok ({ s with heartbeatTask := false, wsOpen := true,
                          state := VoiceState.RECONNECTING,
                          reconnects := s.reconnects + 1, identified := false },
        [Action.sleep 5, Action.openTransport (gatewayUrl e)]) := by
  have hb : ¬(s.maxReconnects ≠ 0 ∧ s.maxReconnects < s.reconnects + 1) := by omega
  unfold on_close afterBackoff connect_and_run gatewayUrl
  simp [h1, hb, h4, h3, hu]

theorem on_close_ok_reconnects (code : Option Nat) (s s2 : VoiceClientState)
    (acts : List Action)
    (h1 : s.state ≠ VoiceState.DISCONNECTED)
    (h : on_close code s = Except.ok (s2, acts)) : s2.reconnects = s.reconnects + 1 := by
  by_cases hbud : s.maxReconnects ≠ 0 ∧ s.maxReconnects < s.reconnects + 1
  · rw [on_close_budget code s h1 hbud.1 (by omega)] at h
    exact Except.noConfusion h
  · have h2 : s.maxReconnects = 0 ∨ s.reconnects + 1 ≤ s.maxReconnects := by omega
    cases he : s.endpoint with
    | none =>
        rw [on_close_endpoint_missing code s h1 h2 he] at h
        exact Except.noConfusion h
    | some e =>
        cases hh : isHardClose code
        · rw [on_close_soft code s e h1 h2 he hh] at h
          simp only [Except.ok.injEq, Prod.mk.injEq] at h
          obtain ⟨rfl, -⟩ := h
          rfl
        · by_cases hu : s.udpExists = true ∧ s.udpConnected = true
          · rw [on_close_hard code s e h1 h2 he hh hu.1 hu.2] at h
            simp only [Except.ok.injEq, Prod.mk.injEq] at h
            obtain ⟨rfl, -⟩ := h
            rfl
          · rw [on_close_hard_noudp code s e h1 h2 he hh hu] at h
            simp only [Except.ok.injEq, Prod.mk.injEq] at h
            obtain ⟨rfl, -⟩ := h
            rfl

theorem runOps_no_close_reconnects (ops : List Op) (s s2 : VoiceClientState)
    (acts : List Action)
    (hops : ∀ op ∈ ops, opInvokesClose op = false)
    (h : runOps ops s = Except.ok (s2, acts)) : s2.reconnects = s.reconnects := by
  induction ops generalizing s acts with
  | nil =>
      simp only [runOps, Except.ok.injEq, Prod.mk.injEq] at h
      obtain ⟨rfl, rfl⟩ := h
      rfl
  | cons op rest ih =>
      simp only [runOps] at h
      cases hs : step op s with
      | error err =>
          simp only [hs] at h
          exact Except.noConfusion h
      | ok p1 =>
          obtain ⟨s1, a1⟩ := p1
          simp only [hs] at h
          cases hr : runOps rest s1 with
          | error err =>
              simp only [hr] at h
              exact Except.noConfusion h
          | ok p2 =>
              obtain ⟨s3, a3⟩ := p2
              simp only [hr, Except.ok.injEq, Prod.mk.injEq] at h
              obtain ⟨rfl, rfl⟩ := h
              have e1 := step_no_close_reconnects op s s1 a1
                (hops op (List.mem_cons_self op rest)) hs
              have e2 := ih s1 a3 (fun o ho => hops o (List.mem_cons_of_mem op ho)) hr
              rw [e2, e1]

/-- Claim C10: the reconnect counter is only ever touched by the closure path
— every operation that does not run `on_close` (handshake completion,
resumption, acknowledgments, registry updates, setters, the public surface,
whole traces of such operations) leaves `reconnects` unchanged, each closure
handled in a non-`DISCONNECTED` state increments it by exactly one, and once
`reconnects` has reached `maxReconnects` (nonzero), the next such closure —
the (maxReconnects+1)-th over the session's lifetime — raises the fatal
`VoiceException` instead of reconnecting. -/
theorem claim10 :
    (∀ (ops : List Op) (s s2 : VoiceClientState) (acts : List Action),
        (∀ op ∈ ops, opInvokesClose op = false) →
        runOps ops s = Except.ok (s2, acts) → s2.reconnects = s.reconnects)
    ∧ (∀ (code : Option Nat) (s s2 : VoiceClientState) (acts : List Action),
        s.state ≠ VoiceState.DISCONNECTED →
        on_close code s = Except.ok (s2, acts) → s2.reconnects = s.reconnects + 1)
    ∧ (∀ (code : Option Nat) (s : VoiceClientState),
        s.state ≠ VoiceState.DISCONNECTED → s.maxReconnects ≠ 0 →
        s.maxReconnects ≤ s.reconnects →
        on_close code s = Except.error (VoiceError.voiceException reconnectFailMsg
          { s with heartbeatTask := false, wsOpen := false,
                   state := VoiceState.RECONNECTING,
                   reconnects := s.reconnects + 1 })) :=
  ⟨runOps_no_close_reconnects,
   fun code s s2 acts h1 h => on_close_ok_reconnects code s s2 acts h1 h,
   fun code s h1 h2 h3 => on_close_budget code s h1 h2 h3⟩

/-- Claim C10, witness: a handshake-completion trace (RESUMED) leaves the
counter at 0, a soft closure increments it to 1, and a closure arriving with
the counter already at `maxReconnects = 5` raises the fatal error. -/
theorem claim10_witness :
    ({ baseState with state := VoiceState.CONNECTED } : VoiceClientState).reconnects =
        baseState.reconnects
    ∧ ({ baseState with
         heartbeatTask := false, wsOpen := true,
         state := VoiceState.RECONNECTING, reconnects := 1 }
         : VoiceClientState).reconnects = baseState.reconnects + 1
    ∧ on_close (some 1000) { baseState with reconnects := 5 } =
        Except.error (VoiceError.voiceException reconnectFailMsg
          { baseState with
            reconnects := 6, heartbeatTask := false, wsOpen := false,
            state := VoiceState.RECONNECTING }) :=
  ⟨claim10.1 [Op.resumed] baseState { baseState with state := VoiceState.CONNECTED } []
      (by decide) (by decide),
   claim10.2.1 (some 1000) baseState
      { baseState with
        heartbeatTask := false, wsOpen := true,
        state := VoiceState.RECONNECTING, reconnects := 1 }
      [Action.sleep 1, Action.openTransport (gatewayUrl "host")] (by decide) (by decide),
   claim10.2.2 (some 1000) { baseState with reconnects := 5 } (by decide) (by decide)
      (by decide)⟩
